import Mathlib

/-! # dn-grafana-api: a shallow embedding of `main.go`

The Go program is a small command-line client.  Its functions are embedded as Lean
functions over an explicit world (environment, HTTP layer, library decoders) and an
explicit execution state (the number of requests sent so far and the trace of
observable events).  A run-time panic of the Go program is the result `none`.
-/

namespace Grafana

/-! ## JSON values as `encoding/json` stores them in an `interface{}` -/

/-- Go value of type `interface{}` produced by `json.Unmarshal`: `nil`, `bool`,
`float64` (kept as the text of its literal, of any magnitude), `string`,
`[]interface{}` and
`map[string]interface{}` (an association list read by first match). -/
inductive JVal where
  | null : JVal
  | bool (b : Bool) : JVal
  | num (lit : String) : JVal
  | str (s : String) : JVal
  | arr (xs : List JVal) : JVal
  | obj (kvs : List (String × JVal)) : JVal

/-- Go map index `m[k]` on a `map[string]interface{}`: the stored value, or the nil
interface when the key is absent. -/
def mapIndex (m : List (String × JVal)) (k : String) : JVal :=
  match m.lookup k with
  | some v => v
  | none => JVal.null

/-- Go map store `m[k] = v`: a later value for the same key replaces the earlier one. -/
def mapStore (m : List (String × JVal)) (k : String) (v : JVal) : List (String × JVal) :=
  m.filter (fun kv => kv.1 != k) ++ [(k, v)]

/-! ## A reference decoder for JSON text

`encoding/json` is not part of the repository.  The program functions below take the
decoder as a parameter; `decodeJSON` is a reference decoder, following the grammar
that `encoding/json` accepts, used to evaluate the program on concrete texts. -/

/-- JSON insignificant whitespace. -/
def isWS (c : Char) : Bool := c == ' ' || c == '\t' || c == '\r' || c == '\n'

/-- Drop leading whitespace. -/
def skipWS : List Char → List Char
  | [] => []
  | c :: cs => if isWS c then skipWS cs else c :: cs

/-- Value of a hexadecimal digit. -/
def hexVal (c : Char) : Option Nat :=
  if '0' ≤ c ∧ c ≤ '9' then some (c.toNat - '0'.toNat)
  else if 'a' ≤ c ∧ c ≤ 'f' then some (c.toNat - 'a'.toNat + 10)
  else if 'A' ≤ c ∧ c ≤ 'F' then some (c.toNat - 'A'.toNat + 10)
  else none

/-- Read four hexadecimal digits (`getu4`). -/
def getu4 : List Char → Option (Nat × List Char)
  | a :: b :: c :: d :: rest =>
    match hexVal a, hexVal b, hexVal c, hexVal d with
    | some x, some y, some z, some w => some (((x * 16 + y) * 16 + z) * 16 + w, rest)
    | _, _, _, _ => none
  | _ => none

/-- The Unicode replacement character. -/
def replacementChar : Char := Char.ofNat 0xFFFD

/-- Body of a string literal after the opening quote (`unquote`): escapes are
decoded, a surrogate pair gives one rune, a lone surrogate the replacement
character; a control character is refused. -/
def parseString : Nat → List Char → List Char → Option (String × List Char)
  | 0, _, _ => none
  | _ + 1, [], _ => none
  | fuel + 1, c :: cs, acc =>
    if c == '"' then some (String.mk acc, cs)
    else if c.toNat < 0x20 then none
    else if c == '\\' then
      match cs with
      | [] => none
      | e :: rest =>
        if e == '"' then parseString fuel rest (acc ++ ['"'])
        else if e == '\\' then parseString fuel rest (acc ++ ['\\'])
        else if e == '/' then parseString fuel rest (acc ++ ['/'])
        else if e == 'b' then parseString fuel rest (acc ++ [Char.ofNat 8])
        else if e == 'f' then parseString fuel rest (acc ++ [Char.ofNat 12])
        else if e == 'n' then parseString fuel rest (acc ++ ['\n'])
        else if e == 'r' then parseString fuel rest (acc ++ ['\r'])
        else if e == 't' then parseString fuel rest (acc ++ ['\t'])
        else if e == 'u' then
          match getu4 rest with
          | none => none
          | some (rr, rest1) =>
            if 0xD800 ≤ rr ∧ rr < 0xE000 then
              match rest1 with
              | '\\' :: 'u' :: rest2 =>
                match getu4 rest2 with
                | some (rr1, rest3) =>
                  if 0xD800 ≤ rr ∧ rr < 0xDC00 ∧ 0xDC00 ≤ rr1 ∧ rr1 < 0xE000 then
                    parseString fuel rest3
                      (acc ++ [Char.ofNat ((rr - 0xD800) * 0x400 + (rr1 - 0xDC00) + 0x10000)])
                  else parseString fuel rest1 (acc ++ [replacementChar])
                | none => parseString fuel rest1 (acc ++ [replacementChar])
              | _ => parseString fuel rest1 (acc ++ [replacementChar])
            else parseString fuel rest1 (acc ++ [Char.ofNat rr])
        else none
    else parseString fuel cs (acc ++ [c])

/-- Leading decimal digits of a text and what follows them. -/
def spanDigits : List Char → List Char × List Char
  | [] => ([], [])
  | c :: cs =>
    if c.isDigit then ((spanDigits cs).1.cons c, (spanDigits cs).2) else ([], c :: cs)

/-- A number literal: `-? (0 | [1-9][0-9]*) (. [0-9]+)? ([eE] [+-]? [0-9]+)?`.  It is
stored as a `float64`, kept here as the text of the literal whatever its magnitude:
the value of the `float64` is not modelled. -/
def parseNumber (cs : List Char) : Option (JVal × List Char) :=
  let (neg, r0) := match cs with
    | '-' :: r => (true, r)
    | r => (false, r)
  let (ip, r1) := spanDigits r0
  if ip = [] then none
  else if ip.head? = some '0' ∧ ip.length > 1 then
    -- a leading zero ends the integer part: what follows is not part of the number
    none
  else
    let fracPart : Option (List Char × List Char) := match r1 with
      | '.' :: r =>
        let (fp, r2) := spanDigits r
        if fp = [] then none else some (fp, r2)
      | r => some ([], r)
    match fracPart with
    | none => none
    | some (fp, r2) =>
      let expPart : Option (List Char × List Char) := match r2 with
        | c :: r =>
          if c == 'e' || c == 'E' then
            let (sgn, r3) := match r with
              | '+' :: r4 => (['+'], r4)
              | '-' :: r4 => (['-'], r4)
              | r4 => ([], r4)
            let (ep, r5) := spanDigits r3
            if ep = [] then none else some ((c :: sgn) ++ ep, r5)
          else some ([], c :: r)
        | [] => some ([], [])
      match expPart with
      | none => none
      | some (etext, r6) =>
        let lit := (if neg then ['-'] else []) ++ ip
          ++ (if fp = [] then [] else '.' :: fp) ++ etext
        some (JVal.num (String.mk lit), r6)

/-- Largest nesting of arrays and objects `encoding/json` accepts. -/
def maxNestingDepth : Nat := 10000

mutual
/-- One JSON value, after optional whitespace. -/
def parseValue : Nat → Nat → List Char → Option (JVal × List Char)
  | 0, _, _ => none
  | fuel + 1, depth, cs =>
    match skipWS cs with
    | [] => none
    | c :: r =>
      if c == '"' then
        match parseString (r.length + 1) r [] with
        | some (s, r1) => some (JVal.str s, r1)
        | none => none
      else if c == '[' then
        if depth ≥ maxNestingDepth then none
        else match skipWS r with
          | ']' :: r1 => some (JVal.arr [], r1)
          | r1 => parseElems fuel (depth + 1) r1 []
      else if c == '{' then
        if depth ≥ maxNestingDepth then none
        else match skipWS r with
          | '}' :: r1 => some (JVal.obj [], r1)
          | r1 => parseMembers fuel (depth + 1) r1 []
      else if c == '-' || c.isDigit then parseNumber (c :: r)
      else match c :: r with
        | 'n' :: 'u' :: 'l' :: 'l' :: r1 => some (JVal.null, r1)
        | 't' :: 'r' :: 'u' :: 'e' :: r1 => some (JVal.bool true, r1)
        | 'f' :: 'a' :: 'l' :: 's' :: 'e' :: r1 => some (JVal.bool false, r1)
        | _ => none
/-- Elements of an array after the first position, up to the closing bracket. -/
def parseElems : Nat → Nat → List Char → List JVal → Option (JVal × List Char)
  | 0, _, _, _ => none
  | fuel + 1, depth, cs, acc =>
    match parseValue fuel depth cs with
    | none => none
    | some (v, r) =>
      match skipWS r with
      | ',' :: r1 => parseElems fuel depth r1 (acc ++ [v])
      | ']' :: r1 => some (JVal.arr (acc ++ [v]), r1)
      | _ => none
/-- Members of an object, up to the closing brace. -/
def parseMembers : Nat → Nat → List Char → List (String × JVal) → Option (JVal × List Char)
  | 0, _, _, _ => none
  | fuel + 1, depth, cs, acc =>
    match skipWS cs with
    | '"' :: r =>
      match parseString (r.length + 1) r [] with
      | none => none
      | some (k, r1) =>
        match skipWS r1 with
        | ':' :: r2 =>
          match parseValue fuel depth r2 with
          | none => none
          | some (v, r3) =>
            match skipWS r3 with
            | ',' :: r4 => parseMembers fuel depth r4 (mapStore acc k v)
            | '}' :: r4 => some (JVal.obj (mapStore acc k v), r4)
            | _ => none
        | _ => none
    | _ => none
end

/-- Reference decoder: the value of a JSON text, `none` when the text is not valid
JSON (only whitespace may surround the value). -/
def decodeJSON (body : String) : Option JVal :=
  match parseValue (2 * body.data.length + 2) 0 body.data with
  | some (v, r) => if skipWS r = [] then some v else none
  | none => none

/-! ## `getDescription` -/

/-- Call `json.Unmarshal([]byte(body), &res)` for a fresh, empty map `res`: the map
is filled when the text is a JSON object and is left empty otherwise (the error of
`Unmarshal` is dropped by the caller). -/
def unmarshalMap (jsonDecode : String → Option JVal) (body : String) : List (String × JVal) :=
  match jsonDecode body with
  | some (JVal.obj m) => m
  | _ => []

/-- Function `getDescription` (main.go 196-208).  The two single-value type
assertions panic when the operand does not hold the asserted type; `none` is that
panic. -/
def getDescription (jsonDecode : String → Option JVal) (body : String) : Option String :=
  let res := unmarshalMap jsonDecode body
  let dashboard := mapIndex res "dashboard"
  match dashboard with
  | JVal.obj dm =>
    let desc := mapIndex dm "description"
    match desc with
    | JVal.null => some ""
    | JVal.str s => some s
    | _ => none
  | _ => none

/-! ## Library string functions -/

/-- Go `unicode.IsSpace`. -/
def isSpace (c : Char) : Bool :=
  let n := c.toNat
  n == 0x09 || n == 0x0A || n == 0x0B || n == 0x0C || n == 0x0D || n == 0x20
    || n == 0x85 || n == 0xA0 || n == 0x1680 || (0x2000 ≤ n && n ≤ 0x200A)
    || n == 0x2028 || n == 0x2029 || n == 0x202F || n == 0x205F || n == 0x3000

/-- Drop the leading and trailing characters that satisfy `p`. -/
def trimFunc (p : Char → Bool) (s : String) : String :=
  String.mk ((s.data.dropWhile p).reverse.dropWhile p).reverse

/-- Go `strings.TrimSpace`. -/
def trimSpace (s : String) : String := trimFunc isSpace s

/-- Go `strings.Trim(s, cutset)`. -/
def stringsTrim (s cutset : String) : String := trimFunc (fun c => cutset.data.contains c) s

/-- Go `fmt` verb `%v` applied to an `error` value: its message, or `<nil>` for the
nil error. -/
def fmtV (err : Option String) : String :=
  match err with
  | some msg => msg
  | none => "<nil>"

/-- Go `fmt` verb `%s` applied to a `[]string`: the elements between brackets,
separated by blanks. -/
def fmtSlice (xs : List String) : String := "[" ++ " ".intercalate xs ++ "]"

/-! ## Data model and world -/

/-- The constant `grafanaUrl`. -/
def grafanaUrl : String := "https://pantheon.grafana.net/api"

/-- The variable `foldersToIgnore`: declared, and read by no function (the TODO of
`run`, main.go 78-83, announces a filter by folder that is not written). -/
def foldersToIgnore : List String := ["scratch", "dev"]

/-- The struct `dashboard` (Go `int` fields are integers; they are only copied). -/
structure dashboard where
  ID : Int
  UID : String
  Title : String
  Uri : String
  Url : String
  Slug : String
  /-- The field `Type` (a reserved word here). -/
  Type_ : String
  Tags : List String
  FolderId : Int
  FolderUid : String
  FolderTitle : String
  FolderUrl : String
  Description : String
  deriving DecidableEq, Repr

/-- What `_getReq` builds: the method, the URL and the `Authorization` header. -/
structure Request where
  method : String
  url : String
  authorization : String
  deriving DecidableEq, Repr

/-- Outcome of `http.DefaultClient.Do` followed by `io.ReadAll` of the body: a
transport error of `Do`, or a response whose body reads to a text or fails with a
read error.  The status code is never looked at. -/
inductive RoundTrip where
  | transportError (msg : String) : RoundTrip
  | response (read : Except String String) : RoundTrip

/-- Everything outside the program: the environment, the HTTP layer (the answer to a
request may depend on how many requests were sent before it) and the functions of
`net/http` and `encoding/json` the program calls. -/
structure World where
  /-- Function `os.Getenv`: the empty string for an unset variable. -/
  getenv : String → String
  /-- The error of `http.NewRequest("GET", url, nil)`, if the URL is refused. -/
  newRequestError : String → Option String
  /-- Outcome of `http.DefaultClient.Do` and `io.ReadAll` for a request, given how
  many requests were sent before it. -/
  roundTrip : Nat → Request → RoundTrip
  /-- Function `json.Unmarshal` into an `interface{}`: `none` for a text that is not
  JSON. -/
  jsonDecode : String → Option JVal
  /-- The empty text is not JSON (`unexpected end of JSON input`). -/
  jsonDecode_empty : jsonDecode "" = none
  /-- Function `json.Unmarshal` into a `[]dashboard` (its error is dropped by the
  caller). -/
  decodeDashboards : String → List dashboard
  /-- Result of `json.MarshalIndent(pd, "", " ")` as a text. -/
  marshalIndent : List dashboard → String

/-- Observable steps of an execution, in order. -/
inductive Event where
  | logDebug (msg : String) : Event
  | newRequest (method url : String) : Event
  | send (req : Request) : Event
  | println (line : String) : Event
  deriving DecidableEq, Repr

/-- Execution state: how many requests were sent, and the events so far. -/
structure St where
  sent : Nat
  trace : List Event
  deriving DecidableEq, Repr

/-- The state at program start. -/
def St.init : St := { sent := 0, trace := [] }

/-- A step of the program: from a state to a value, or `none` when the program
panics, and the state reached. -/
def M (α : Type) : Type := St → Option α × St

/-- Return a value without touching the state. -/
def M.pure {α : Type} (a : α) : M α := fun st => (some a, st)

/-- Sequence two steps; a panic stops the execution. -/
def M.bind {α β : Type} (m : M α) (f : α → M β) : M β := fun st =>
  match m st with
  | (some a, st1) => f a st1
  | (none, st1) => (none, st1)

instance : Monad M where
  pure := M.pure
  bind := M.bind

/-- Record an event. -/
def emit (e : Event) : M Unit := fun st => (some (), { st with trace := st.trace ++ [e] })

/-- A run-time panic. -/
def goPanic {α : Type} : M α := fun st => (none, st)

/-- Call `http.DefaultClient.Do(req)` and the read of the body that follows it. -/
def httpDo (w : World) (req : Request) : M RoundTrip := fun st =>
  (some (w.roundTrip st.sent req),
    { sent := st.sent + 1, trace := st.trace ++ [Event.send req] })

/-- The requests sent in a trace, in order. -/
def sentRequests : List Event → List Request
  | [] => []
  | Event.send req :: es => req :: sentRequests es
  | _ :: es => sentRequests es

/-- The URLs for which a request was built in a trace, in order. -/
def builtUrls : List Event → List String
  | [] => []
  | Event.newRequest _ url :: es => url :: builtUrls es
  | _ :: es => builtUrls es

/-- The lines written by `fmt.Println` in a trace, in order. -/
def printed : List Event → List String
  | [] => []
  | Event.println line :: es => line :: printed es
  | _ :: es => printed es

/-! ## The program -/

/-- Function `_getReq` (main.go 182-193): the request, or the wrapped error of
`http.NewRequest`. -/
def _getReq (w : World) (endpoint : String) : M (Except String Request) := do
  let url := grafanaUrl ++ "/" ++ endpoint
  emit (Event.newRequest "GET" url)
  match w.newRequestError url with
  | some err => pure (Except.error ("get request: " ++ err))
  | none =>
    let bearer := "Bearer " ++ w.getenv "GRAFANA_TOKEN"
    pure (Except.ok { method := "GET", url := url, authorization := bearer })

/-- Function `getUser` (main.go 120-137): the pair of the returned text and error.
The message of a read failure is formatted from `err`, the error of `Do`, which is
nil at that point. -/
def getUser (w : World) : M (String × Option String) := do
  match ← _getReq w "user" with
  | Except.error err => pure ("", some ("getUser request: " ++ err))
  | Except.ok req =>
    match ← httpDo w req with
    | RoundTrip.transportError err => pure ("", some ("do request: " ++ err))
    | RoundTrip.response (Except.error _readErr) =>
      let err : Option String := none
      pure ("", some ("read body: " ++ fmtV err))
    | RoundTrip.response (Except.ok body) => pure (body, none)

/-- Function `getDashboard` (main.go 158-179): the pair of the returned text and
error. -/
def getDashboard (w : World) (dashboardUID : String) : M (String × Option String) := do
  let endpoint := "dashboards/uid/" ++ dashboardUID
  match ← _getReq w endpoint with
  | Except.error err => pure ("", some ("getDashboard request: " ++ err))
  | Except.ok req =>
    match ← httpDo w req with
    | RoundTrip.transportError err => pure ("", some ("do request: " ++ err))
    | RoundTrip.response (Except.error _readErr) =>
      let err : Option String := none
      pure ("", some ("read body: " ++ fmtV err))
    | RoundTrip.response (Except.ok body) => pure (body, none)

/-- Function `getAllDashboards` (main.go 210-233): the pair of the returned records
and error. -/
def getAllDashboards (w : World) (queryParam : String) :
    M (List dashboard × Option String) := do
  let endpoint := "/search?query=" ++ queryParam
  match ← _getReq w endpoint with
  | Except.error err => pure ([], some ("getAllDashboards request: " ++ err))
  | Except.ok req =>
    match ← httpDo w req with
    | RoundTrip.transportError err => pure ([], some ("do request: " ++ err))
    | RoundTrip.response (Except.error _readErr) =>
      let err : Option String := none
      pure ([], some ("read body: " ++ fmtV err))
    | RoundTrip.response (Except.ok body) => pure (w.decodeDashboards body, none)

/-- The loop of `parseDashboards` (main.go 141-153) over the records not yet
visited, with `filteredDashboards` as accumulator. -/
def parseDashboardsLoop (w : World) : List dashboard → List dashboard → M (List dashboard)
  | [], filteredDashboards => pure filteredDashboards
  | d :: rest, filteredDashboards =>
    if d.Type_ = "dash-folder" then parseDashboardsLoop w rest filteredDashboards
    else do
      emit (Event.println d.Title)
      let (singleDashboard, _) ← getDashboard w d.UID
      match getDescription w.jsonDecode singleDashboard with
      | none => goPanic
      | some desc =>
        parseDashboardsLoop w rest (filteredDashboards ++ [{ d with Description := desc }])

/-- Function `parseDashboards` (main.go 139-156): the error it returns is always
nil. -/
def parseDashboards (w : World) (ad : List dashboard) :
    M (List dashboard × Option String) := do
  let filteredDashboards ← parseDashboardsLoop w ad []
  pure (filteredDashboards, none)

/-- The list `requiredEnvs` of `run`. -/
def requiredEnvs : List String := ["GRAFANA_TOKEN"]

/-- The text `errs` that `run` builds from the required variables that are empty
(main.go 56-61). -/
def missingEnvs (w : World) : String :=
  requiredEnvs.foldl
    (fun errs env => if w.getenv env = "" then errs ++ (env ++ ", ") else errs) ""

/-- The query of the `search` verb (main.go 94-98). -/
def queryParam (argsWithoutProg : List String) : String :=
  match argsWithoutProg with
  | _ :: q :: _ => trimSpace q
  | _ => "%"

/-- Function `run` (main.go 50-118), for the arguments `os.Args[1:]`: the error it
returns, `none` for nil. -/
def run (w : World) (args : List String) : M (Option String) := do
  emit (Event.logDebug "loading ENV variables")
  let errs := missingEnvs w
  if errs ≠ "" then
    pure (some ("missing env variables: " ++ stringsTrim errs " ,"))
  else
    let argsWithoutProg ←
      if args.length < 1 then do
        emit (Event.logDebug "no arg specified setting endpoint to \x27user\x27")
        pure (args ++ ["user"])
      else pure args
    match argsWithoutProg with
    | [] => goPanic -- `argsWithoutProg[0]` on an empty slice; never reached
    | verb :: _ =>
      if verb = "user" then do
        emit (Event.logDebug "performing GET \x27user\x27 request")
        let (body, err) ← getUser w
        match err with
        | some e => pure (some ("getUser: " ++ e))
        | none =>
          emit (Event.println body)
          pure none
      else if verb = "search" then do
        let (allDashboards, err) ← getAllDashboards w (queryParam argsWithoutProg)
        match err with
        | some e => pure (some ("getAllDashboards: " ++ e))
        | none =>
          let (pd, _) ← parseDashboards w allDashboards
          let j := w.marshalIndent pd
          emit (Event.println j)
          pure none
      else do
        let (body, err) ← getDashboard w verb
        match err with
        | some e => pure (some ("getDashboards [" ++ fmtSlice argsWithoutProg ++ "]: " ++ e))
        | none =>
          emit (Event.println body)
          pure none

/-- What is left of a trace for an observer of the network and of standard output
when the logger drops `Debug` records, as the logger of `main` does (a JSON handler
with default options has level `Info`). -/
def observable (tr : List Event) : List Event :=
  tr.filter (fun e => match e with
    | Event.logDebug _ => false
    | _ => true)

/-- The request `getDashboard` builds for an identifier. -/
def dashboardRequest (w : World) (dashboardUID : String) : Request :=
  { method := "GET", url := grafanaUrl ++ "/" ++ ("dashboards/uid/" ++ dashboardUID),
    authorization := "Bearer " ++ w.getenv "GRAFANA_TOKEN" }

/-- The request `getAllDashboards` builds for a query. -/
def searchRequest (w : World) (query : String) : Request :=
  { method := "GET", url := grafanaUrl ++ "/" ++ ("/search?query=" ++ query),
    authorization := "Bearer " ++ w.getenv "GRAFANA_TOKEN" }

/-- The request `getUser` builds. -/
def userRequest (w : World) : Request :=
  { method := "GET", url := grafanaUrl ++ "/" ++ "user",
    authorization := "Bearer " ++ w.getenv "GRAFANA_TOKEN" }

/-- A record with its description blanked: every field but `Description`. -/
def eraseDescription (d : dashboard) : dashboard := { d with Description := "" }

/-- The records `parseDashboards` keeps: those whose type is not `dash-folder`. -/
def keptRecords (ad : List dashboard) : List dashboard :=
  ad.filter (fun d => decide (d.Type_ ≠ "dash-folder"))

/-! ## Concrete worlds -/

/-- A record with the given identifier, title, type and folder title. -/
def mkDashboard (uid title type_ folderTitle : String) : dashboard :=
  { ID := 0, UID := uid, Title := title, Uri := "", Url := "", Slug := "", Type_ := type_,
    Tags := [], FolderId := 0, FolderUid := "", FolderTitle := folderTitle, FolderUrl := "",
    Description := "" }

/-- The body `\x7b"dashboard":\x7b"description":"hello"\x7d\x7d`. -/
def helloBody : String := "\x7b\"dashboard\":\x7b\"description\":\"hello\"\x7d\x7d"

/-- A search response with the dashboard `abc`, titled `T1`, in the folder `scratch`,
and the folder `fold1`. -/
def searchBody : String :=
  "[\x7b\"uid\":\"abc\",\"title\":\"T1\",\"type\":\"dashboard\",\"folderTitle\":\"scratch\"\x7d,"
    ++ "\x7b\"uid\":\"fold1\",\"title\":\"F\",\"type\":\"dash-folder\"\x7d]"

/-- The records of `searchBody`. -/
def searchRecords : List dashboard :=
  [mkDashboard "abc" "T1" "dashboard" "scratch", mkDashboard "fold1" "F" "dash-folder" ""]

/-- A world with the token `tok`: the search for `%` answers `searchBody`, the
dashboard `abc` has the body `helloBody`, any other request gets the body `BODY`.
The encoder is a stand-in that lists identifiers and descriptions. -/
def sampleWorld : World where
  getenv := fun k => if k = "GRAFANA_TOKEN" then "tok" else ""
  newRequestError := fun _ => none
  roundTrip := fun _ req =>
    if req.url = "https://pantheon.grafana.net/api/dashboards/uid/abc" then
      RoundTrip.response (Except.ok helloBody)
    else if req.url = "https://pantheon.grafana.net/api//search?query=%" then
      RoundTrip.response (Except.ok searchBody)
    else RoundTrip.response (Except.ok "BODY")
  jsonDecode := decodeJSON
  jsonDecode_empty := rfl
  decodeDashboards := fun body => if body = searchBody then searchRecords else []
  marshalIndent := fun ds => " ".intercalate (ds.map (fun d => d.UID ++ "=" ++ d.Description))

/-- The sample world with no token in the environment. -/
def noTokenWorld : World := { sampleWorld with getenv := fun _ => "" }

/-- The sample world with a network on which the search is answered and every other
request fails in transport. -/
def flakyWorld : World :=
  { sampleWorld with
    roundTrip := fun _ req =>
      if req.url = "https://pantheon.grafana.net/api//search?query=%" then
        RoundTrip.response (Except.ok searchBody)
      else RoundTrip.transportError "connection refused" }

/-- The sample world with a network on which every request fails in transport. -/
def downWorld : World :=
  { sampleWorld with roundTrip := fun _ _ => RoundTrip.transportError "connection refused" }

/-- The body of a 404 answer: `\x7b"message":"Dashboard not found"\x7d`. -/
def notFoundBody : String := "\x7b\"message\":\"Dashboard not found\"\x7d"

/-- The sample world with a server that knows the dashboard `abc` only: any other
request is answered with `notFoundBody`. -/
def notFoundWorld : World :=
  { sampleWorld with
    roundTrip := fun _ req =>
      if req.url = "https://pantheon.grafana.net/api/dashboards/uid/abc" then
        RoundTrip.response (Except.ok helloBody)
      else RoundTrip.response (Except.ok notFoundBody) }

/-- The sample world with a `net/http` that refuses every URL. -/
def refusedWorld : World :=
  { sampleWorld with newRequestError := fun _ => some "invalid URL escape" }

/-- Three dashboards: `abc`, `missing` and `abc` again. -/
def threeRecords : List dashboard :=
  [mkDashboard "abc" "T1" "dashboard" "", mkDashboard "missing" "T2" "dashboard" "",
    mkDashboard "abc" "T3" "dashboard" ""]

/-- The sample world with a network on which every body fails to read. -/
def brokenReadWorld : World :=
  { sampleWorld with
    roundTrip := fun _ _ => RoundTrip.response (Except.error "unexpected EOF") }

/-! ## States and traces named in the statements -/

/-- The state after a request for `req` was built and refused. -/
def St.afterBuild (st : St) (req : Request) : St :=
  { st with trace := st.trace ++ [Event.newRequest "GET" req.url] }

/-- The state after a request `req` was built and sent. -/
def St.afterSend (st : St) (req : Request) : St :=
  { sent := st.sent + 1,
    trace := st.trace ++ [Event.newRequest "GET" req.url, Event.send req] }

/-- The state of `run` once the environment check has passed. -/
def St.checked : St := { sent := 0, trace := [Event.logDebug "loading ENV variables"] }

/-- The state in which the `user` branch calls `getUser`. -/
def St.user : St :=
  { sent := 0,
    trace := [Event.logDebug "loading ENV variables",
      Event.logDebug "performing GET \x27user\x27 request"] }

/-- Append an event to the trace of a state. -/
def St.add (st : St) (e : Event) : St := { st with trace := st.trace ++ [e] }

/-- The state in which `getUser` is called when no argument was given. -/
def St.userByDefault : St :=
  { sent := 0,
    trace := [Event.logDebug "loading ENV variables",
      Event.logDebug "no arg specified setting endpoint to \x27user\x27",
      Event.logDebug "performing GET \x27user\x27 request"] }

/-- The state after the iteration for a record that is not a folder, when its
request was sent. -/
def St.afterFetch (st : St) (w : World) (d : dashboard) : St :=
  (st.add (Event.println d.Title)).afterSend (dashboardRequest w d.UID)

/-- The events of the iterations for a list of kept records: the title is printed,
the request is built, the request is sent. -/
def fetchTrace (w : World) : List dashboard → List Event
  | [] => []
  | d :: ds =>
    Event.println d.Title :: Event.newRequest "GET" (dashboardRequest w d.UID).url
      :: Event.send (dashboardRequest w d.UID) :: fetchTrace w ds

/-! ## Execution lemmas -/

theorem pure_apply {α : Type} (a : α) (st : St) : (pure a : M α) st = (some a, st) := rfl

theorem bind_apply {α β : Type} (m : M α) (f : α → M β) (st : St) :
    (m >>= f) st = match m st with
      | (some a, st1) => f a st1
      | (none, st1) => (none, st1) := rfl

theorem emit_apply (e : Event) (st : St) :
    emit e st = (some (), { st with trace := st.trace ++ [e] }) := rfl

theorem httpDo_apply (w : World) (req : Request) (st : St) :
    httpDo w req st = (some (w.roundTrip st.sent req),
      { sent := st.sent + 1, trace := st.trace ++ [Event.send req] }) := rfl

theorem goPanic_apply {α : Type} (st : St) : (goPanic : M α) st = (none, st) := rfl

/-! ## `getDescription` -/

/-- C1: when the decoded text is an object whose `dashboard` is an object whose
`description` is the string `s`, `getDescription` returns exactly `s`. -/
theorem getDescription_string (jsonDecode : String → Option JVal) (body : String)
    (m d : List (String × JVal)) (s : String)
    (hbody : jsonDecode body = some (JVal.obj m))
    (hdash : mapIndex m "dashboard" = JVal.obj d)
    (hdesc : mapIndex d "description" = JVal.str s) :
    getDescription jsonDecode body = some s := by
  simp [getDescription, unmarshalMap, hbody, hdash, hdesc]

/-- C1 at the text `helloBody`: the description `hello` is returned. -/
theorem getDescription_string_witness :
    decodeJSON helloBody
        = some (JVal.obj [("dashboard", JVal.obj [("description", JVal.str "hello")])])
      ∧ getDescription decodeJSON helloBody = some "hello" :=
  ⟨rfl, getDescription_string decodeJSON helloBody
    [("dashboard", JVal.obj [("description", JVal.str "hello")])]
    [("description", JVal.str "hello")] "hello" rfl rfl rfl⟩

/-- A `dashboard` object without `description`, or with a null one, gives the empty
string. -/
theorem getDescription_no_description (jsonDecode : String → Option JVal) (body : String)
    (m d : List (String × JVal))
    (hbody : jsonDecode body = some (JVal.obj m))
    (hdash : mapIndex m "dashboard" = JVal.obj d)
    (hdesc : mapIndex d "description" = JVal.null) :
    getDescription jsonDecode body = some "" := by
  simp [getDescription, unmarshalMap, hbody, hdash, hdesc]

/-- Function `getDescription` returns exactly when the decoded map holds an object under
`dashboard` whose `description` is absent, null or a string; in every other case it
panics. -/
theorem getDescription_isSome_iff (jsonDecode : String → Option JVal) (body : String) :
    (getDescription jsonDecode body).isSome ↔
      ∃ d, mapIndex (unmarshalMap jsonDecode body) "dashboard" = JVal.obj d ∧
        (mapIndex d "description" = JVal.null ∨ ∃ s, mapIndex d "description" = JVal.str s) := by
  simp only [getDescription]
  cases h : mapIndex (unmarshalMap jsonDecode body) "dashboard" with
  | obj d => cases h2 : mapIndex d "description" <;> simp [h2]
  | _ => simp

/-- A text that does not decode makes `getDescription` panic. -/
theorem getDescription_not_json (jsonDecode : String → Option JVal) (body : String)
    (hbody : jsonDecode body = none) : getDescription jsonDecode body = none := by
  simp [getDescription, unmarshalMap, hbody, mapIndex]

/-- An object without the key `dashboard` makes `getDescription` panic. -/
theorem getDescription_no_dashboard (jsonDecode : String → Option JVal) (body : String)
    (m : List (String × JVal))
    (hbody : jsonDecode body = some (JVal.obj m)) (hdash : m.lookup "dashboard" = none) :
    getDescription jsonDecode body = none := by
  simp [getDescription, unmarshalMap, hbody, mapIndex, hdash]

/-- C2 at the text `\x7b\x7d`: it is valid JSON without the key `dashboard`, and
`getDescription` panics on it instead of returning the empty string. -/
theorem getDescription_empty_object_panics :
    decodeJSON "\x7b\x7d" = some (JVal.obj []) ∧ getDescription decodeJSON "\x7b\x7d" = none :=
  ⟨rfl, rfl⟩

/-- C3 at six texts: `getDescription` panics on text that is not JSON, on JSON whose
`dashboard` is not an object and on JSON whose `description` is a number, a boolean,
an array or an object, instead of returning the empty string. -/
theorem getDescription_mismatch_panics :
    getDescription decodeJSON "not json" = none
      ∧ getDescription decodeJSON "\x7b\"dashboard\":\"x\"\x7d" = none
      ∧ getDescription decodeJSON "\x7b\"dashboard\":\x7b\"description\":5\x7d\x7d" = none
      ∧ getDescription decodeJSON "\x7b\"dashboard\":\x7b\"description\":true\x7d\x7d" = none
      ∧ getDescription decodeJSON "\x7b\"dashboard\":\x7b\"description\":[]\x7d\x7d" = none
      ∧ getDescription decodeJSON "\x7b\"dashboard\":\x7b\"description\":\x7b\x7d\x7d\x7d" = none :=
  ⟨rfl, rfl, rfl, rfl, rfl, rfl⟩

/-! ## `run`: the environment check -/

theorem missingEnvs_of_unset (w : World) (h : w.getenv "GRAFANA_TOKEN" = "") :
    missingEnvs w = "GRAFANA_TOKEN, " := by
  simp [missingEnvs, requiredEnvs, h]

theorem missingEnvs_of_set (w : World) (h : w.getenv "GRAFANA_TOKEN" ≠ "") :
    missingEnvs w = "" := by
  simp [missingEnvs, requiredEnvs, h]

/-- With the token unset, `run` stops after its first log call. -/
theorem run_of_unset (w : World) (args : List String) (h : w.getenv "GRAFANA_TOKEN" = "") :
    run w args St.init
      = (some (some "missing env variables: GRAFANA_TOKEN"),
          { sent := 0, trace := [Event.logDebug "loading ENV variables"] }) := by
  have h2 : stringsTrim "GRAFANA_TOKEN, " " ," = "GRAFANA_TOKEN" := by decide
  simp [run, bind_apply, pure_apply, emit_apply, missingEnvs_of_unset w h, h2, St.init]

/-! ## The three fetch operations, step by step -/

theorem getUser_apply (w : World) (st : St) :
    getUser w st =
      match w.newRequestError (userRequest w).url with
      | some err =>
        (some ("", some ("getUser request: " ++ ("get request: " ++ err))),
          st.afterBuild (userRequest w))
      | none =>
        match w.roundTrip st.sent (userRequest w) with
        | RoundTrip.transportError err =>
          (some ("", some ("do request: " ++ err)), st.afterSend (userRequest w))
        | RoundTrip.response (Except.error _) =>
          (some ("", some "read body: <nil>"), st.afterSend (userRequest w))
        | RoundTrip.response (Except.ok body) =>
          (some (body, none), st.afterSend (userRequest w)) := by
  simp only [getUser, _getReq, bind_apply, emit_apply, userRequest]
  cases h : w.newRequestError (grafanaUrl ++ "/" ++ "user") with
  | some err => rfl
  | none =>
    simp only [pure_apply, httpDo_apply]
    cases h2 : w.roundTrip st.sent
        { method := "GET", url := grafanaUrl ++ "/" ++ "user",
          authorization := "Bearer " ++ w.getenv "GRAFANA_TOKEN" } with
    | transportError err => simp [bind_apply, pure_apply, httpDo_apply, h2, St.afterSend]
    | response r =>
      cases r with
      | error e => simp [bind_apply, pure_apply, httpDo_apply, h2, St.afterSend, fmtV]
      | ok body => simp [bind_apply, pure_apply, httpDo_apply, h2, St.afterSend]

theorem getDashboard_apply (w : World) (uid : String) (st : St) :
    getDashboard w uid st =
      match w.newRequestError (dashboardRequest w uid).url with
      | some err =>
        (some ("", some ("getDashboard request: " ++ ("get request: " ++ err))),
          st.afterBuild (dashboardRequest w uid))
      | none =>
        match w.roundTrip st.sent (dashboardRequest w uid) with
        | RoundTrip.transportError err =>
          (some ("", some ("do request: " ++ err)), st.afterSend (dashboardRequest w uid))
        | RoundTrip.response (Except.error _) =>
          (some ("", some "read body: <nil>"), st.afterSend (dashboardRequest w uid))
        | RoundTrip.response (Except.ok body) =>
          (some (body, none), st.afterSend (dashboardRequest w uid)) := by
  simp only [getDashboard, _getReq, bind_apply, emit_apply, dashboardRequest]
  cases h : w.newRequestError (grafanaUrl ++ "/" ++ ("dashboards/uid/" ++ uid)) with
  | some err => rfl
  | none =>
    simp only [pure_apply, httpDo_apply]
    cases h2 : w.roundTrip st.sent
        { method := "GET", url := grafanaUrl ++ "/" ++ ("dashboards/uid/" ++ uid),
          authorization := "Bearer " ++ w.getenv "GRAFANA_TOKEN" } with
    | transportError err => simp [bind_apply, pure_apply, httpDo_apply, h2, St.afterSend]
    | response r =>
      cases r with
      | error e => simp [bind_apply, pure_apply, httpDo_apply, h2, St.afterSend, fmtV]
      | ok body => simp [bind_apply, pure_apply, httpDo_apply, h2, St.afterSend]

theorem getAllDashboards_apply (w : World) (query : String) (st : St) :
    getAllDashboards w query st =
      match w.newRequestError (searchRequest w query).url with
      | some err =>
        (some ([], some ("getAllDashboards request: " ++ ("get request: " ++ err))),
          st.afterBuild (searchRequest w query))
      | none =>
        match w.roundTrip st.sent (searchRequest w query) with
        | RoundTrip.transportError err =>
          (some ([], some ("do request: " ++ err)), st.afterSend (searchRequest w query))
        | RoundTrip.response (Except.error _) =>
          (some ([], some "read body: <nil>"), st.afterSend (searchRequest w query))
        | RoundTrip.response (Except.ok body) =>
          (some (w.decodeDashboards body, none), st.afterSend (searchRequest w query)) := by
  simp only [getAllDashboards, _getReq, bind_apply, emit_apply, searchRequest]
  cases h : w.newRequestError (grafanaUrl ++ "/" ++ ("/search?query=" ++ query)) with
  | some err => rfl
  | none =>
    simp only [pure_apply, httpDo_apply]
    cases h2 : w.roundTrip st.sent
        { method := "GET", url := grafanaUrl ++ "/" ++ ("/search?query=" ++ query),
          authorization := "Bearer " ++ w.getenv "GRAFANA_TOKEN" } with
    | transportError err => simp [bind_apply, pure_apply, httpDo_apply, h2, St.afterSend]
    | response r =>
      cases r with
      | error e => simp [bind_apply, pure_apply, httpDo_apply, h2, St.afterSend, fmtV]
      | ok body => simp [bind_apply, pure_apply, httpDo_apply, h2, St.afterSend]

/-! ## `run`: dispatch -/

/-- The `user` verb (main.go 85-91), outcome by outcome. -/
theorem run_user (w : World) (h : w.getenv "GRAFANA_TOKEN" ≠ "") (rest : List String) :
    run w ("user" :: rest) St.init =
      match w.newRequestError (userRequest w).url with
      | some err =>
        (some (some ("getUser: " ++ ("getUser request: " ++ ("get request: " ++ err)))),
          St.user.afterBuild (userRequest w))
      | none =>
        match w.roundTrip 0 (userRequest w) with
        | RoundTrip.transportError err =>
          (some (some ("getUser: " ++ ("do request: " ++ err))),
            St.user.afterSend (userRequest w))
        | RoundTrip.response (Except.error _) =>
          (some (some ("getUser: " ++ "read body: <nil>")), St.user.afterSend (userRequest w))
        | RoundTrip.response (Except.ok body) =>
          (some none, (St.user.afterSend (userRequest w)).add (Event.println body)) := by
  cases h1 : w.newRequestError (userRequest w).url with
  | some err =>
    simp [run, pure_apply, bind_apply, emit_apply, missingEnvs_of_set w h, St.init,
      getUser_apply, h1, St.user]
  | none =>
    cases h2 : w.roundTrip 0 (userRequest w) with
    | transportError err =>
      simp [run, pure_apply, bind_apply, emit_apply, missingEnvs_of_set w h, St.init,
        getUser_apply, h1, h2, St.user]
    | response r =>
      cases r with
      | error e =>
        simp [run, pure_apply, bind_apply, emit_apply, missingEnvs_of_set w h, St.init,
          getUser_apply, h1, h2, St.user]
      | ok body =>
        simp [run, pure_apply, bind_apply, emit_apply, missingEnvs_of_set w h, St.init,
          getUser_apply, h1, h2, St.user, St.add]

/-- No argument (main.go 72-75, then 85-91), outcome by outcome. -/
theorem run_no_args (w : World) (h : w.getenv "GRAFANA_TOKEN" ≠ "") :
    run w [] St.init =
      match w.newRequestError (userRequest w).url with
      | some err =>
        (some (some ("getUser: " ++ ("getUser request: " ++ ("get request: " ++ err)))),
          St.userByDefault.afterBuild (userRequest w))
      | none =>
        match w.roundTrip 0 (userRequest w) with
        | RoundTrip.transportError err =>
          (some (some ("getUser: " ++ ("do request: " ++ err))),
            St.userByDefault.afterSend (userRequest w))
        | RoundTrip.response (Except.error _) =>
          (some (some ("getUser: " ++ "read body: <nil>")),
            St.userByDefault.afterSend (userRequest w))
        | RoundTrip.response (Except.ok body) =>
          (some none, (St.userByDefault.afterSend (userRequest w)).add (Event.println body)) := by
  cases h1 : w.newRequestError (userRequest w).url with
  | some err =>
    simp [run, pure_apply, bind_apply, emit_apply, missingEnvs_of_set w h, St.init,
      getUser_apply, h1, St.userByDefault]
  | none =>
    cases h2 : w.roundTrip 0 (userRequest w) with
    | transportError err =>
      simp [run, pure_apply, bind_apply, emit_apply, missingEnvs_of_set w h, St.init,
        getUser_apply, h1, h2, St.userByDefault]
    | response r =>
      cases r with
      | error e =>
        simp [run, pure_apply, bind_apply, emit_apply, missingEnvs_of_set w h, St.init,
          getUser_apply, h1, h2, St.userByDefault]
      | ok body =>
        simp [run, pure_apply, bind_apply, emit_apply, missingEnvs_of_set w h, St.init,
          getUser_apply, h1, h2, St.userByDefault, St.add]

/-- C8: for every world, `run` with no argument returns the same result, sends the
same requests and prints the same lines, in the same order, as `run` with the single
argument `user`; the two executions differ by one `Debug` log call. -/
theorem run_no_args_same_as_user (w : World) :
    (run w [] St.init).1 = (run w ["user"] St.init).1
      ∧ observable (run w [] St.init).2.trace = observable (run w ["user"] St.init).2.trace
      ∧ sentRequests (run w [] St.init).2.trace = sentRequests (run w ["user"] St.init).2.trace
      ∧ printed (run w [] St.init).2.trace = printed (run w ["user"] St.init).2.trace
      ∧ (run w [] St.init).2.sent = (run w ["user"] St.init).2.sent := by
  by_cases h : w.getenv "GRAFANA_TOKEN" = ""
  · simp [run_of_unset w _ h]
  · rw [run_no_args w h, run_user w h []]
    cases h1 : w.newRequestError (userRequest w).url with
    | some err =>
      simp [St.afterBuild, St.user, St.userByDefault, observable, sentRequests, printed]
    | none =>
      cases h2 : w.roundTrip 0 (userRequest w) with
      | transportError err =>
        simp [St.afterSend, St.user, St.userByDefault, observable, sentRequests, printed]
      | response r =>
        cases r with
        | error e =>
          simp [St.afterSend, St.user, St.userByDefault, observable, sentRequests, printed]
        | ok body =>
          simp [St.afterSend, St.user, St.userByDefault, observable, sentRequests, printed,
            St.add]

/-- The lookup verb (main.go 109-114): any first argument other than `user` and
`search`, outcome by outcome. -/
theorem run_lookup (w : World) (h : w.getenv "GRAFANA_TOKEN" ≠ "") (verb : String)
    (rest : List String) (hu : verb ≠ "user") (hs : verb ≠ "search") :
    run w (verb :: rest) St.init =
      match w.newRequestError (dashboardRequest w verb).url with
      | some err =>
        (some (some ("getDashboards [" ++ fmtSlice (verb :: rest) ++ "]: "
            ++ ("getDashboard request: " ++ ("get request: " ++ err)))),
          St.checked.afterBuild (dashboardRequest w verb))
      | none =>
        match w.roundTrip 0 (dashboardRequest w verb) with
        | RoundTrip.transportError err =>
          (some (some ("getDashboards [" ++ fmtSlice (verb :: rest) ++ "]: "
              ++ ("do request: " ++ err))),
            St.checked.afterSend (dashboardRequest w verb))
        | RoundTrip.response (Except.error _) =>
          (some (some ("getDashboards [" ++ fmtSlice (verb :: rest) ++ "]: "
              ++ "read body: <nil>")),
            St.checked.afterSend (dashboardRequest w verb))
        | RoundTrip.response (Except.ok body) =>
          (some none, (St.checked.afterSend (dashboardRequest w verb)).add (Event.println body)) := by
  cases h1 : w.newRequestError (dashboardRequest w verb).url with
  | some err =>
    simp [run, pure_apply, bind_apply, emit_apply, missingEnvs_of_set w h, St.init,
      getDashboard_apply, h1, St.checked, hu, hs]
  | none =>
    cases h2 : w.roundTrip 0 (dashboardRequest w verb) with
    | transportError err =>
      simp [run, pure_apply, bind_apply, emit_apply, missingEnvs_of_set w h, St.init,
        getDashboard_apply, h1, h2, St.checked, hu, hs]
    | response r =>
      cases r with
      | error e =>
        simp [run, pure_apply, bind_apply, emit_apply, missingEnvs_of_set w h, St.init,
          getDashboard_apply, h1, h2, St.checked, hu, hs]
      | ok body =>
        simp [run, pure_apply, bind_apply, emit_apply, missingEnvs_of_set w h, St.init,
          getDashboard_apply, h1, h2, St.checked, hu, hs, St.add]

/-- The `search` verb (main.go 93-107), outcome by outcome. -/
theorem run_search (w : World) (h : w.getenv "GRAFANA_TOKEN" ≠ "") (rest : List String) :
    run w ("search" :: rest) St.init =
      match w.newRequestError (searchRequest w (queryParam ("search" :: rest))).url with
      | some err =>
        (some (some ("getAllDashboards: "
            ++ ("getAllDashboards request: " ++ ("get request: " ++ err)))),
          St.checked.afterBuild (searchRequest w (queryParam ("search" :: rest))))
      | none =>
        match w.roundTrip 0 (searchRequest w (queryParam ("search" :: rest))) with
        | RoundTrip.transportError err =>
          (some (some ("getAllDashboards: " ++ ("do request: " ++ err))),
            St.checked.afterSend (searchRequest w (queryParam ("search" :: rest))))
        | RoundTrip.response (Except.error _) =>
          (some (some ("getAllDashboards: " ++ "read body: <nil>")),
            St.checked.afterSend (searchRequest w (queryParam ("search" :: rest))))
        | RoundTrip.response (Except.ok body) =>
          match parseDashboards w (w.decodeDashboards body)
              (St.checked.afterSend (searchRequest w (queryParam ("search" :: rest)))) with
          | (some pd, st) => (some none, st.add (Event.println (w.marshalIndent pd.1)))
          | (none, st) => (none, st) := by
  cases h1 : w.newRequestError (searchRequest w (queryParam ("search" :: rest))).url with
  | some err =>
    simp [run, pure_apply, bind_apply, emit_apply, missingEnvs_of_set w h, St.init,
      getAllDashboards_apply, h1, St.checked]
  | none =>
    cases h2 : w.roundTrip 0 (searchRequest w (queryParam ("search" :: rest))) with
    | transportError err =>
      simp [run, pure_apply, bind_apply, emit_apply, missingEnvs_of_set w h, St.init,
        getAllDashboards_apply, h1, h2, St.checked]
    | response r =>
      cases r with
      | error e =>
        simp [run, pure_apply, bind_apply, emit_apply, missingEnvs_of_set w h, St.init,
          getAllDashboards_apply, h1, h2, St.checked]
      | ok body =>
        simp [run, pure_apply, bind_apply, emit_apply, missingEnvs_of_set w h, St.init,
          getAllDashboards_apply, h1, h2, St.checked, St.add]
        generalize parseDashboards w _ _ = r
        rcases r with ⟨_ | pd, st⟩ <;> rfl

/-! ## C7: the missing token -/

theorem head_append (a b : String) (x : Char) (ha : a.data.head? = some x) :
    (a ++ b).data.head? = some x := by
  rw [String.data_append]
  cases hd : a.data with
  | nil => simp [hd] at ha
  | cons y ys => simpa [hd] using ha

/-- A message that starts with `g` is not the message of the environment check. -/
theorem ne_missing_of_head (s : String) (hs : s.data.head? = some 'g') :
    s ≠ "missing env variables: GRAFANA_TOKEN" := by
  intro h
  rw [h] at hs
  revert hs
  decide

/-- C7: with `GRAFANA_TOKEN` unset or empty, `run` returns the error
`missing env variables: GRAFANA_TOKEN` after its first log call, having built no
request, sent none and printed nothing; with the variable non-empty, `run` does not
return that error. -/
theorem run_missing_token (w : World) (args : List String) :
    (w.getenv "GRAFANA_TOKEN" = "" →
      (run w args St.init).1 = some (some "missing env variables: GRAFANA_TOKEN")
        ∧ (run w args St.init).2 = { sent := 0, trace := [Event.logDebug "loading ENV variables"] }
        ∧ builtUrls (run w args St.init).2.trace = []
        ∧ sentRequests (run w args St.init).2.trace = []
        ∧ printed (run w args St.init).2.trace = [])
      ∧ (w.getenv "GRAFANA_TOKEN" ≠ "" →
        (run w args St.init).1 ≠ some (some "missing env variables: GRAFANA_TOKEN")) := by
  refine ⟨fun h => ?_, fun h => ?_⟩
  · simp [run_of_unset w args h, builtUrls, sentRequests, printed]
  · have hU : ∀ e : String, "getUser: " ++ e ≠ "missing env variables: GRAFANA_TOKEN" :=
      fun e => ne_missing_of_head _ (head_append _ _ _ rfl)
    have hA : ∀ e : String, "getAllDashboards: " ++ e ≠ "missing env variables: GRAFANA_TOKEN" :=
      fun e => ne_missing_of_head _ (head_append _ _ _ rfl)
    have hD : ∀ (xs : List String) (e : String),
        "getDashboards [" ++ fmtSlice xs ++ "]: " ++ e ≠ "missing env variables: GRAFANA_TOKEN" :=
      fun xs e => ne_missing_of_head _
        (head_append _ _ _ (head_append _ _ _ (head_append _ _ _ rfl)))
    cases args with
    | nil =>
      rw [run_no_args w h]
      cases h1 : w.newRequestError (userRequest w).url with
      | some err => simpa using hU _
      | none =>
        cases h2 : w.roundTrip 0 (userRequest w) with
        | transportError err => simpa using hU _
        | response r => cases r <;> simp
    | cons verb rest =>
      by_cases hu : verb = "user"
      · subst hu
        rw [run_user w h]
        cases h1 : w.newRequestError (userRequest w).url with
        | some err => simpa using hU _
        | none =>
          cases h2 : w.roundTrip 0 (userRequest w) with
          | transportError err => simpa using hU _
          | response r => cases r <;> simp
      · by_cases hs : verb = "search"
        · subst hs
          rw [run_search w h]
          cases h1 : w.newRequestError (searchRequest w (queryParam ("search" :: rest))).url with
          | some err => simpa using hA _
          | none =>
            cases h2 : w.roundTrip 0 (searchRequest w (queryParam ("search" :: rest))) with
            | transportError err => simpa using hA _
            | response r =>
              cases r with
              | error e => simp
              | ok body =>
                simp only []
                generalize parseDashboards w _ _ = r
                rcases r with ⟨_ | pd, st⟩ <;> simp
        · rw [run_lookup w h verb rest hu hs]
          cases h1 : w.newRequestError (dashboardRequest w verb).url with
          | some err => simpa using hD _ _
          | none =>
            cases h2 : w.roundTrip 0 (dashboardRequest w verb) with
            | transportError err => simpa using hD _ _
            | response r =>
              cases r with
              | error e => simpa using hD _ _
              | ok body => simp

/-- C7 at a world without token (arguments `search x`) and at the sample world,
whose token is `tok` (argument `user`). -/
theorem run_missing_token_witness :
    (noTokenWorld.getenv "GRAFANA_TOKEN" = ""
        ∧ (run noTokenWorld ["search", "x"] St.init).1
            = some (some "missing env variables: GRAFANA_TOKEN")
        ∧ sentRequests (run noTokenWorld ["search", "x"] St.init).2.trace = [])
      ∧ (sampleWorld.getenv "GRAFANA_TOKEN" ≠ ""
        ∧ (run sampleWorld ["user"] St.init).1
            ≠ some (some "missing env variables: GRAFANA_TOKEN")) :=
  ⟨⟨rfl, ((run_missing_token noTokenWorld ["search", "x"]).1 rfl).1,
      ((run_missing_token noTokenWorld ["search", "x"]).1 rfl).2.2.2.1⟩,
    ⟨by decide, (run_missing_token sampleWorld ["user"]).2 (by decide)⟩⟩

/-! ## `parseDashboards`: one iteration -/

/-- The empty body that a failed fetch leaves in `singleDashboard` makes
`getDescription` panic. -/
theorem getDescription_empty_body (w : World) : getDescription w.jsonDecode "" = none :=
  getDescription_not_json w.jsonDecode "" w.jsonDecode_empty

/-- A folder record is skipped: nothing is printed and nothing is fetched. -/
theorem parseDashboardsLoop_folder (w : World) (d : dashboard) (rest acc : List dashboard)
    (st : St) (hd : d.Type_ = "dash-folder") :
    parseDashboardsLoop w (d :: rest) acc st = parseDashboardsLoop w rest acc st := by
  simp [parseDashboardsLoop, hd]

/-- One iteration for a record that is not a folder, outcome by outcome: the loop
goes on only when the body was fetched and a description was extracted from it. -/
theorem parseDashboardsLoop_keep (w : World) (d : dashboard) (rest acc : List dashboard)
    (st : St) (hd : d.Type_ ≠ "dash-folder") :
    parseDashboardsLoop w (d :: rest) acc st =
      match w.newRequestError (dashboardRequest w d.UID).url with
      | some _ =>
        (none, (st.add (Event.println d.Title)).afterBuild (dashboardRequest w d.UID))
      | none =>
        match w.roundTrip st.sent (dashboardRequest w d.UID) with
        | RoundTrip.transportError _ => (none, st.afterFetch w d)
        | RoundTrip.response (Except.error _) => (none, st.afterFetch w d)
        | RoundTrip.response (Except.ok body) =>
          match getDescription w.jsonDecode body with
          | none => (none, st.afterFetch w d)
          | some desc =>
            parseDashboardsLoop w rest (acc ++ [{ d with Description := desc }])
              (st.afterFetch w d) := by
  cases h1 : w.newRequestError (dashboardRequest w d.UID).url with
  | some err =>
    simp [parseDashboardsLoop, hd, bind_apply, emit_apply, getDashboard_apply, h1,
      getDescription_empty_body, goPanic_apply, St.add]
  | none =>
    cases h2 : w.roundTrip st.sent (dashboardRequest w d.UID) with
    | transportError err =>
      simp [parseDashboardsLoop, hd, bind_apply, emit_apply, getDashboard_apply, h1, h2,
        getDescription_empty_body, goPanic_apply, St.add, St.afterFetch, St.afterSend]
    | response r =>
      cases r with
      | error e =>
        simp [parseDashboardsLoop, hd, bind_apply, emit_apply, getDashboard_apply, h1, h2,
          getDescription_empty_body, goPanic_apply, St.add, St.afterFetch, St.afterSend]
      | ok body =>
        cases h3 : getDescription w.jsonDecode body with
        | none =>
          simp [parseDashboardsLoop, hd, bind_apply, emit_apply, getDashboard_apply, h1, h2,
            h3, goPanic_apply, St.add, St.afterFetch, St.afterSend]
        | some desc =>
          simp [parseDashboardsLoop, hd, bind_apply, emit_apply, getDashboard_apply, h1, h2,
            h3, St.add, St.afterFetch, St.afterSend]

/-! ## `parseDashboards`: the whole loop -/

theorem keptRecords_cons_folder (d : dashboard) (rest : List dashboard)
    (hd : d.Type_ = "dash-folder") : keptRecords (d :: rest) = keptRecords rest := by
  simp [keptRecords, hd]

theorem keptRecords_cons_keep (d : dashboard) (rest : List dashboard)
    (hd : d.Type_ ≠ "dash-folder") : keptRecords (d :: rest) = d :: keptRecords rest := by
  simp [keptRecords, hd]

/-- What a returning loop has done: every kept record had its request built and
sent, got a body from which a description was extracted, and was appended with that
description; nothing else happened. -/
theorem parseDashboardsLoop_returns (w : World) :
    ∀ (ad acc : List dashboard) (st st1 : St) (out : List dashboard),
      parseDashboardsLoop w ad acc st = (some out, st1) →
      ∃ new, out = acc ++ new ∧ new.length = (keptRecords ad).length ∧
        (∀ i d, (keptRecords ad)[i]? = some d →
          ∃ body desc, w.newRequestError (dashboardRequest w d.UID).url = none
            ∧ w.roundTrip (st.sent + i) (dashboardRequest w d.UID)
                = RoundTrip.response (Except.ok body)
            ∧ getDescription w.jsonDecode body = some desc
            ∧ new[i]? = some { d with Description := desc }) ∧
        st1.sent = st.sent + (keptRecords ad).length ∧
        st1.trace = st.trace ++ fetchTrace w (keptRecords ad) := by
  intro ad
  induction ad with
  | nil =>
    intro acc st st1 out h
    simp only [parseDashboardsLoop, pure_apply, Prod.mk.injEq, Option.some.injEq] at h
    obtain ⟨rfl, rfl⟩ := h
    exact ⟨[], by simp, by simp [keptRecords], by simp [keptRecords], by simp [keptRecords],
      by simp [keptRecords, fetchTrace]⟩
  | cons d rest ih =>
    intro acc st st1 out h
    by_cases hd : d.Type_ = "dash-folder"
    · rw [parseDashboardsLoop_folder w d rest acc st hd] at h
      rw [keptRecords_cons_folder d rest hd]
      exact ih acc st st1 out h
    · rw [parseDashboardsLoop_keep w d rest acc st hd] at h
      rw [keptRecords_cons_keep d rest hd]
      cases h1 : w.newRequestError (dashboardRequest w d.UID).url with
      | some err => simp [h1] at h
      | none =>
        cases h2 : w.roundTrip st.sent (dashboardRequest w d.UID) with
        | transportError err => simp [h1, h2] at h
        | response r =>
          cases r with
          | error e => simp [h1, h2] at h
          | ok body =>
            cases h3 : getDescription w.jsonDecode body with
            | none => simp [h1, h2, h3] at h
            | some desc =>
              simp only [h1, h2, h3] at h
              obtain ⟨new, hout, hlen, hidx, hsent, htrace⟩ := ih _ _ _ _ h
              refine ⟨{ d with Description := desc } :: new, ?_, ?_, ?_, ?_, ?_⟩
              · simp [hout]
              · simp [hlen]
              · intro i e hi
                cases i with
                | zero =>
                  simp only [List.getElem?_cons_zero, Option.some.injEq] at hi
                  subst hi
                  exact ⟨body, desc, h1, by simpa using h2, h3, by simp⟩
                | succ j =>
                  simp only [List.getElem?_cons_succ] at hi
                  obtain ⟨b, s, hb1, hb2, hb3, hb4⟩ := hidx j e hi
                  refine ⟨b, s, hb1, ?_, hb3, by simpa using hb4⟩
                  have : st.sent + (j + 1) = (st.afterFetch w d).sent + j := by
                    simp [St.afterFetch, St.afterSend, St.add]; omega
                  rw [this]; exact hb2
              · simp [hsent, St.afterFetch, St.afterSend, St.add]; omega
              · simp [htrace, St.afterFetch, St.afterSend, St.add, fetchTrace]

theorem sentRequests_append (a b : List Event) :
    sentRequests (a ++ b) = sentRequests a ++ sentRequests b := by
  induction a with
  | nil => rfl
  | cons e es ih => cases e <;> simp [sentRequests, ih]

theorem builtUrls_append (a b : List Event) :
    builtUrls (a ++ b) = builtUrls a ++ builtUrls b := by
  induction a with
  | nil => rfl
  | cons e es ih => cases e <;> simp [builtUrls, ih]

theorem sentRequests_fetchTrace (w : World) (l : List dashboard) :
    sentRequests (fetchTrace w l) = l.map (fun d => dashboardRequest w d.UID) := by
  induction l with
  | nil => rfl
  | cons d ds ih => simp [fetchTrace, sentRequests, ih]

theorem builtUrls_fetchTrace (w : World) (l : List dashboard) :
    builtUrls (fetchTrace w l) = l.map (fun d => (dashboardRequest w d.UID).url) := by
  induction l with
  | nil => rfl
  | cons d ds ih => simp [fetchTrace, builtUrls, ih]

/-- A returning `parseDashboards` is a returning loop started with no record. -/
theorem parseDashboards_eq_some (w : World) (ad : List dashboard) (st st1 : St)
    (out : List dashboard × Option String)
    (h : parseDashboards w ad st = (some out, st1)) :
    parseDashboardsLoop w ad [] st = (some out.1, st1) ∧ out.2 = none := by
  simp only [parseDashboards, bind_apply] at h
  rcases hl : parseDashboardsLoop w ad [] st with ⟨_ | r, st2⟩
  · simp [hl] at h
  · simp only [hl, pure_apply, Prod.mk.injEq, Option.some.injEq] at h
    obtain ⟨rfl, rfl⟩ := h
    exact ⟨rfl, rfl⟩

/-- Whenever `parseDashboards` returns, whatever the HTTP layer answered, its output
holds no record of type `dash-folder`, and with the descriptions blanked it is
exactly the input with the `dash-folder` records removed, in the same order; every
input record that is not a folder is kept, whatever its folder title. -/
theorem parseDashboards_filters (w : World) (ad : List dashboard) (st st1 : St)
    (out : List dashboard × Option String)
    (h : parseDashboards w ad st = (some out, st1)) :
    (∀ d ∈ out.1, d.Type_ ≠ "dash-folder")
      ∧ out.1.map eraseDescription
          = (ad.filter (fun d => decide (d.Type_ ≠ "dash-folder"))).map eraseDescription
      ∧ (∀ d ∈ ad, d.Type_ ≠ "dash-folder" →
          eraseDescription d ∈ out.1.map eraseDescription) := by
  obtain ⟨hl, _⟩ := parseDashboards_eq_some w ad st st1 out h
  obtain ⟨new, hout, hlen, hidx, _, _⟩ := parseDashboardsLoop_returns w ad [] st st1 out.1 hl
  simp only [List.nil_append] at hout
  have hmap : out.1.map eraseDescription = (keptRecords ad).map eraseDescription := by
    rw [hout]
    apply List.ext_getElem?
    intro i
    simp only [List.getElem?_map]
    cases hk : (keptRecords ad)[i]? with
    | none =>
      have : new[i]? = none := by
        rw [List.getElem?_eq_none_iff] at hk ⊢
        omega
      simp [this]
    | some d =>
      obtain ⟨_, desc, _, _, _, hn⟩ := hidx i d hk
      simp [hn, eraseDescription]
  have hkept : ∀ d, d ∈ keptRecords ad ↔ d ∈ ad ∧ d.Type_ ≠ "dash-folder" := by
    intro d; simp [keptRecords]
  refine ⟨?_, hmap, ?_⟩
  · intro d hd
    have hmem : eraseDescription d ∈ (keptRecords ad).map eraseDescription := by
      rw [← hmap]; exact List.mem_map_of_mem _ hd
    obtain ⟨k, hk, hke⟩ := List.mem_map.mp hmem
    have hty : k.Type_ = d.Type_ := by
      have := congrArg dashboard.Type_ hke
      simpa [eraseDescription] using this
    rw [← hty]
    exact ((hkept k).mp hk).2
  · intro d hd hty
    rw [hmap]
    exact List.mem_map_of_mem _ ((hkept d).mpr ⟨hd, hty⟩)

/-- The records of `searchBody` in the sample world: the dashboard `abc` is kept
although its folder title `scratch` is one of `foldersToIgnore`, and the folder
`fold1` is dropped. -/
theorem parseDashboards_filters_sample :
    (mkDashboard "abc" "T1" "dashboard" "scratch").FolderTitle ∈ foldersToIgnore
      ∧ parseDashboards sampleWorld searchRecords St.init
          = (some ([{ mkDashboard "abc" "T1" "dashboard" "scratch" with Description := "hello" }],
              none), St.init.afterFetch sampleWorld (mkDashboard "abc" "T1" "dashboard" "scratch"))
      ∧ [{ mkDashboard "abc" "T1" "dashboard" "scratch" with Description := "hello" }].map
            eraseDescription
          = (searchRecords.filter (fun d => decide (d.Type_ ≠ "dash-folder"))).map
              eraseDescription :=
  ⟨by decide, by decide,
    (parseDashboards_filters sampleWorld searchRecords St.init
      (St.init.afterFetch sampleWorld (mkDashboard "abc" "T1" "dashboard" "scratch"))
      ([{ mkDashboard "abc" "T1" "dashboard" "scratch" with Description := "hello" }], none)
      (by decide)).2.1⟩

/-- Whenever `parseDashboards` returns, the i-th output record is the i-th kept
input record with its description replaced by what `getDescription` extracts
from the body that `getDashboard` returns for that record's identifier (the fetch
being the one made after `i` earlier ones); the requests built and sent are exactly
one per kept record, in order, and none for a folder. -/
theorem parseDashboards_descriptions (w : World) (ad : List dashboard) (st st1 : St)
    (out : List dashboard × Option String)
    (h : parseDashboards w ad st = (some out, st1)) :
    out.1.length = (keptRecords ad).length
      ∧ (∀ i d, (keptRecords ad)[i]? = some d →
          ∃ body desc,
            (∀ s : St, s.sent = st.sent + i → (getDashboard w d.UID s).1 = some (body, none))
              ∧ getDescription w.jsonDecode body = some desc
              ∧ out.1[i]? = some { d with Description := desc })
      ∧ builtUrls st1.trace
          = builtUrls st.trace ++ (keptRecords ad).map (fun d => (dashboardRequest w d.UID).url)
      ∧ sentRequests st1.trace
          = sentRequests st.trace ++ (keptRecords ad).map (fun d => dashboardRequest w d.UID)
      ∧ st1.sent = st.sent + (keptRecords ad).length := by
  obtain ⟨hl, _⟩ := parseDashboards_eq_some w ad st st1 out h
  obtain ⟨new, hout, hlen, hidx, hsent, htrace⟩ :=
    parseDashboardsLoop_returns w ad [] st st1 out.1 hl
  simp only [List.nil_append] at hout
  refine ⟨by rw [hout, hlen], ?_, ?_, ?_, hsent⟩
  · intro i d hk
    obtain ⟨body, desc, h1, h2, h3, h4⟩ := hidx i d hk
    refine ⟨body, desc, ?_, h3, by rw [hout]; exact h4⟩
    intro s hs
    rw [getDashboard_apply, h1, hs, h2]
  · rw [htrace, builtUrls_append, builtUrls_fetchTrace]
  · rw [htrace, sentRequests_append, sentRequests_fetchTrace]

/-- The example of the spec: a dashboard `abc` titled `T1` and a folder `fold1`, in
the sample world, where the fetch for `abc` returns `helloBody`.  The output is the
single record `abc`, `T1` with the description `hello`, after one request. -/
theorem parseDashboards_descriptions_sample :
    parseDashboards sampleWorld
        [mkDashboard "abc" "T1" "dashboard" "", mkDashboard "fold1" "" "dash-folder" ""] St.init
        = (some ([{ mkDashboard "abc" "T1" "dashboard" "" with Description := "hello" }], none),
            St.init.afterFetch sampleWorld (mkDashboard "abc" "T1" "dashboard" ""))
      ∧ sentRequests (St.init.afterFetch sampleWorld (mkDashboard "abc" "T1" "dashboard" "")).trace
        = sentRequests St.init.trace
            ++ (keptRecords [mkDashboard "abc" "T1" "dashboard" "",
                  mkDashboard "fold1" "" "dash-folder" ""]).map
                (fun d => dashboardRequest sampleWorld d.UID) :=
  ⟨by decide,
    (parseDashboards_descriptions sampleWorld
      [mkDashboard "abc" "T1" "dashboard" "", mkDashboard "fold1" "" "dash-folder" ""] St.init
      (St.init.afterFetch sampleWorld (mkDashboard "abc" "T1" "dashboard" ""))
      ([{ mkDashboard "abc" "T1" "dashboard" "" with Description := "hello" }], none)
      (by decide)).2.2.2.1⟩

/-- Function `parseDashboards` does return when every kept record has its request accepted,
gets a body, and that body has a description to extract. -/
theorem parseDashboardsLoop_total (w : World) :
    ∀ (ad acc : List dashboard) (st : St),
      (∀ i d, (keptRecords ad)[i]? = some d →
        w.newRequestError (dashboardRequest w d.UID).url = none
          ∧ ∃ body desc, w.roundTrip (st.sent + i) (dashboardRequest w d.UID)
                = RoundTrip.response (Except.ok body)
              ∧ getDescription w.jsonDecode body = some desc) →
      ∃ out st1, parseDashboardsLoop w ad acc st = (some out, st1) := by
  intro ad
  induction ad with
  | nil => intro acc st _; exact ⟨acc, st, rfl⟩
  | cons d rest ih =>
    intro acc st hall
    by_cases hd : d.Type_ = "dash-folder"
    · rw [parseDashboardsLoop_folder w d rest acc st hd]
      rw [keptRecords_cons_folder d rest hd] at hall
      exact ih acc st hall
    · rw [parseDashboardsLoop_keep w d rest acc st hd]
      rw [keptRecords_cons_keep d rest hd] at hall
      obtain ⟨h1, body, desc, h2, h3⟩ := hall 0 d (by simp)
      simp only [Nat.add_zero] at h2
      simp only [h1, h2, h3]
      apply ih
      intro i e hi
      have := hall (i + 1) e (by simpa using hi)
      have hs : (st.afterFetch w d).sent + i = st.sent + (i + 1) := by
        simp [St.afterFetch, St.afterSend, St.add]; omega
      rw [hs]; exact this

/-- The loop panics as soon as one kept record does not get a body with a
description: in particular when its fetch fails in transport. -/
theorem parseDashboardsLoop_panics (w : World) (ad acc : List dashboard) (st : St)
    (i : Nat) (d : dashboard) (hk : (keptRecords ad)[i]? = some d)
    (hfail : ∀ body, w.roundTrip (st.sent + i) (dashboardRequest w d.UID)
        = RoundTrip.response (Except.ok body) → getDescription w.jsonDecode body = none) :
    (parseDashboardsLoop w ad acc st).1 = none := by
  rcases hl : parseDashboardsLoop w ad acc st with ⟨_ | out, st1⟩
  · rfl
  · obtain ⟨_, _, _, hidx, _, _⟩ := parseDashboardsLoop_returns w ad acc st st1 out hl
    obtain ⟨body, desc, _, h2, h3, _⟩ := hidx i d hk
    rw [hfail body h2] at h3
    cases h3

/-- Function `parseDashboards` returns exactly when every kept record has its request
accepted, gets a body, and that body has a description to extract; otherwise it
panics. -/
theorem parseDashboards_returns_iff (w : World) (ad : List dashboard) (st : St) :
    (∃ out st1, parseDashboards w ad st = (some out, st1)) ↔
      ∀ i d, (keptRecords ad)[i]? = some d →
        w.newRequestError (dashboardRequest w d.UID).url = none
          ∧ ∃ body desc, w.roundTrip (st.sent + i) (dashboardRequest w d.UID)
                = RoundTrip.response (Except.ok body)
              ∧ getDescription w.jsonDecode body = some desc := by
  constructor
  · rintro ⟨out, st1, h⟩ i d hk
    obtain ⟨hl, _⟩ := parseDashboards_eq_some w ad st st1 out h
    obtain ⟨_, _, _, hidx, _, _⟩ := parseDashboardsLoop_returns w ad [] st st1 out.1 hl
    obtain ⟨body, desc, h1, h2, h3, _⟩ := hidx i d hk
    exact ⟨h1, body, desc, h2, h3⟩
  · intro hall
    obtain ⟨out, st1, hl⟩ := parseDashboardsLoop_total w ad [] st hall
    exact ⟨(out, none), st1, by simp [parseDashboards, bind_apply, hl, pure_apply]⟩

/-- The loop only appends to the trace. -/
theorem parseDashboardsLoop_trace (w : World) :
    ∀ (ad acc : List dashboard) (st : St),
      ∃ evs, (parseDashboardsLoop w ad acc st).2.trace = st.trace ++ evs := by
  intro ad
  induction ad with
  | nil => intro acc st; exact ⟨[], by simp [parseDashboardsLoop, pure_apply]⟩
  | cons d rest ih =>
    intro acc st
    by_cases hd : d.Type_ = "dash-folder"
    · rw [parseDashboardsLoop_folder w d rest acc st hd]
      exact ih acc st
    · rw [parseDashboardsLoop_keep w d rest acc st hd]
      cases h1 : w.newRequestError (dashboardRequest w d.UID).url with
      | some err =>
        exact ⟨[Event.println d.Title, Event.newRequest "GET" (dashboardRequest w d.UID).url],
          by simp [St.afterBuild, St.add]⟩
      | none =>
        cases h2 : w.roundTrip st.sent (dashboardRequest w d.UID) with
        | transportError err =>
          exact ⟨fetchTrace w [d], by simp [St.afterFetch, St.afterSend, St.add, fetchTrace]⟩
        | response r =>
          cases r with
          | error e =>
            exact ⟨fetchTrace w [d], by simp [St.afterFetch, St.afterSend, St.add, fetchTrace]⟩
          | ok body =>
            cases h3 : getDescription w.jsonDecode body with
            | none =>
              exact ⟨fetchTrace w [d],
                by simp [h3, St.afterFetch, St.afterSend, St.add, fetchTrace]⟩
            | some desc =>
              obtain ⟨evs, hevs⟩ := ih (acc ++ [{ d with Description := desc }])
                (st.afterFetch w d)
              refine ⟨fetchTrace w [d] ++ evs, ?_⟩
              simp only [h3, hevs]
              simp [St.afterFetch, St.afterSend, St.add, fetchTrace]

/-- Function `parseDashboards` only appends to the trace. -/
theorem parseDashboards_trace (w : World) (ad : List dashboard) (st : St) :
    ∃ evs, (parseDashboards w ad st).2.trace = st.trace ++ evs := by
  obtain ⟨evs, hevs⟩ := parseDashboardsLoop_trace w ad [] st
  refine ⟨evs, ?_⟩
  simp only [parseDashboards, bind_apply]
  rcases hl : parseDashboardsLoop w ad [] st with ⟨_ | r, st2⟩
  · rw [hl] at hevs; exact hevs
  · rw [hl] at hevs; exact hevs

/-! ## C4, C5: `parseDashboards` on a fetch without description -/

/-- C4 on three networks: the dashboard `abc` of `searchRecords` is not a folder, so
the claim has it in the output, whatever the fetch does; when the fetch fails in
transport, when its URL is refused, and when the server answers a 404 body,
`parseDashboards` panics and there is no output at all. -/
theorem parseDashboards_failed_fetch_no_output :
    searchRecords.filter (fun d => decide (d.Type_ ≠ "dash-folder"))
        = [mkDashboard "abc" "T1" "dashboard" "scratch"]
      ∧ (parseDashboards flakyWorld searchRecords St.init).1 = none
      ∧ (parseDashboards refusedWorld searchRecords St.init).1 = none
      ∧ (parseDashboards notFoundWorld [mkDashboard "missing" "T2" "dashboard" ""] St.init).1
          = none := by
  decide

/-- C5 at the dashboards `abc`, `missing`, `abc` on a server that answers a 404 body
for `missing`: three records survive the filter, and `parseDashboards` panics after
two fetches, so that the third surviving record gets none, where the claim has
exactly one fetch per surviving record. -/
theorem parseDashboards_panic_skips_fetches :
    (keptRecords threeRecords).length = 3
      ∧ (parseDashboards notFoundWorld threeRecords St.init).1 = none
      ∧ sentRequests (parseDashboards notFoundWorld threeRecords St.init).2.trace
          = [dashboardRequest notFoundWorld "abc", dashboardRequest notFoundWorld "missing"]
      ∧ builtUrls (parseDashboards notFoundWorld threeRecords St.init).2.trace
          = ["https://pantheon.grafana.net/api/dashboards/uid/abc",
              "https://pantheon.grafana.net/api/dashboards/uid/missing"] := by
  decide

/-! ## C9: the query of `search` -/

theorem append_left_cancel (p a b : String) (h : p ++ a = p ++ b) : a = b := by
  have hd := congrArg String.data h
  simp only [String.data_append, List.append_cancel_left_eq] at hd
  exact String.ext hd

/-- The first request `run` builds for the verb `search` is the search request for
`queryParam` of the arguments. -/
theorem run_search_first_url (w : World) (h : w.getenv "GRAFANA_TOKEN" ≠ "")
    (rest : List String) :
    (builtUrls (run w ("search" :: rest) St.init).2.trace).head?
      = some (grafanaUrl ++ "/" ++ ("/search?query=" ++ queryParam ("search" :: rest))) := by
  rw [run_search w h]
  cases h1 : w.newRequestError (searchRequest w (queryParam ("search" :: rest))).url with
  | some err => simp [St.afterBuild, St.checked, builtUrls, searchRequest]
  | none =>
    cases h2 : w.roundTrip 0 (searchRequest w (queryParam ("search" :: rest))) with
    | transportError err => simp [St.afterSend, St.checked, builtUrls, searchRequest]
    | response r =>
      cases r with
      | error e => simp [St.afterSend, St.checked, builtUrls, searchRequest]
      | ok body =>
        simp only []
        obtain ⟨evs, hevs⟩ := parseDashboards_trace w (w.decodeDashboards body)
          (St.checked.afterSend (searchRequest w (queryParam ("search" :: rest))))
        rcases hp : parseDashboards w (w.decodeDashboards body)
          (St.checked.afterSend (searchRequest w (queryParam ("search" :: rest))))
          with ⟨_ | pd, st⟩
        · rw [hp] at hevs
          simp only [] at hevs
          simp [hevs, St.afterSend, St.checked, builtUrls, searchRequest]
        · rw [hp] at hevs
          simp only [] at hevs
          simp [hevs, St.add, St.afterSend, St.checked, builtUrls, searchRequest]

/-- C9: with the token set, `run` with the verb `search` and no further argument
calls `getAllDashboards` with the query `%`, so that the first request it builds is
the search for `%`; with a second argument `q` the query is `q` with the surrounding
whitespace trimmed, which is the default `%` only when `q` itself trims to `%`. -/
theorem run_search_query (w : World) (h : w.getenv "GRAFANA_TOKEN" ≠ "") :
    queryParam ["search"] = "%"
      ∧ (builtUrls (run w ["search"] St.init).2.trace).head?
          = some (grafanaUrl ++ "/" ++ ("/search?query=" ++ "%"))
      ∧ ∀ (q : String) (rest : List String),
          queryParam ("search" :: q :: rest) = trimSpace q
            ∧ (builtUrls (run w ("search" :: q :: rest) St.init).2.trace).head?
                = some (grafanaUrl ++ "/" ++ ("/search?query=" ++ trimSpace q))
            ∧ (trimSpace q ≠ "%" →
                (builtUrls (run w ("search" :: q :: rest) St.init).2.trace).head?
                  ≠ some (grafanaUrl ++ "/" ++ ("/search?query=" ++ "%"))) := by
  refine ⟨rfl, run_search_first_url w h [], fun q rest => ⟨rfl, ?_, ?_⟩⟩
  · exact run_search_first_url w h (q :: rest)
  · intro hq heq
    rw [run_search_first_url w h (q :: rest)] at heq
    have h1 := Option.some.inj heq
    have h2 : queryParam ("search" :: q :: rest) = "%" :=
      append_left_cancel _ _ _ (append_left_cancel _ _ _ h1)
    exact hq h2

/-- C9 in the sample world: `search` alone asks for `%`, and `search` with the
argument ` cpu ` asks for `cpu`. -/
theorem run_search_query_witness :
    sampleWorld.getenv "GRAFANA_TOKEN" ≠ ""
      ∧ (builtUrls (run sampleWorld ["search"] St.init).2.trace).head?
          = some "https://pantheon.grafana.net/api//search?query=%"
      ∧ (builtUrls (run sampleWorld ["search", " cpu "] St.init).2.trace).head?
          = some (grafanaUrl ++ "/" ++ ("/search?query=" ++ trimSpace " cpu "))
      ∧ trimSpace " cpu " = "cpu" :=
  ⟨by decide, (run_search_query sampleWorld (by decide)).2.1,
    ((run_search_query sampleWorld (by decide)).2.2 " cpu " []).2.1, by decide⟩

/-! ## C6: transport failures -/

/-- A transport failure of the identity fetch is returned by `run`, wrapped with the
name of `getUser`. -/
theorem run_user_transport_failure (w : World) (h : w.getenv "GRAFANA_TOKEN" ≠ "")
    (rest : List String) (e : String)
    (h1 : w.newRequestError (userRequest w).url = none)
    (h2 : w.roundTrip 0 (userRequest w) = RoundTrip.transportError e) :
    (run w ("user" :: rest) St.init).1 = some (some ("getUser: " ++ ("do request: " ++ e)))
      ∧ printed (run w ("user" :: rest) St.init).2.trace = [] := by
  rw [run_user w h rest]
  simp [h1, h2, St.afterSend, St.user, printed]

/-- A transport failure of the search fetch is returned by `run`, wrapped with the
name of `getAllDashboards`. -/
theorem run_search_transport_failure (w : World) (h : w.getenv "GRAFANA_TOKEN" ≠ "")
    (rest : List String) (e : String)
    (h1 : w.newRequestError (searchRequest w (queryParam ("search" :: rest))).url = none)
    (h2 : w.roundTrip 0 (searchRequest w (queryParam ("search" :: rest)))
        = RoundTrip.transportError e) :
    (run w ("search" :: rest) St.init).1
        = some (some ("getAllDashboards: " ++ ("do request: " ++ e)))
      ∧ printed (run w ("search" :: rest) St.init).2.trace = [] := by
  rw [run_search w h rest]
  simp [h1, h2, St.afterSend, St.checked, printed]

/-- A transport failure of the lookup fetch is returned by `run`, wrapped with
`getDashboards` and the arguments. -/
theorem run_lookup_transport_failure (w : World) (h : w.getenv "GRAFANA_TOKEN" ≠ "")
    (verb : String) (rest : List String) (hu : verb ≠ "user") (hs : verb ≠ "search")
    (e : String)
    (h1 : w.newRequestError (dashboardRequest w verb).url = none)
    (h2 : w.roundTrip 0 (dashboardRequest w verb) = RoundTrip.transportError e) :
    (run w (verb :: rest) St.init).1
        = some (some ("getDashboards [" ++ fmtSlice (verb :: rest) ++ "]: "
            ++ ("do request: " ++ e)))
      ∧ printed (run w (verb :: rest) St.init).2.trace = [] := by
  rw [run_lookup w h verb rest hu hs]
  simp [h1, h2, St.afterSend, St.checked, printed]

/-- A transport failure of the fetch for one of the records kept by `search` is not
returned: `parseDashboards` drops the error, passes the empty body on to
`getDescription`, and `run` panics. -/
theorem run_search_entry_transport_failure (w : World) (h : w.getenv "GRAFANA_TOKEN" ≠ "")
    (rest : List String) (body e : String) (i : Nat) (d : dashboard)
    (h1 : w.newRequestError (searchRequest w (queryParam ("search" :: rest))).url = none)
    (h2 : w.roundTrip 0 (searchRequest w (queryParam ("search" :: rest)))
        = RoundTrip.response (Except.ok body))
    (hk : (keptRecords (w.decodeDashboards body))[i]? = some d)
    (hf : w.roundTrip (1 + i) (dashboardRequest w d.UID) = RoundTrip.transportError e) :
    (run w ("search" :: rest) St.init).1 = none := by
  rw [run_search w h rest]
  simp only [h1, h2]
  have hp := parseDashboardsLoop_panics w (w.decodeDashboards body) []
    (St.checked.afterSend (searchRequest w (queryParam ("search" :: rest)))) i d hk
    (by
      intro b hb
      have hs : (St.checked.afterSend (searchRequest w (queryParam ("search" :: rest)))).sent + i
          = 1 + i := by simp [St.afterSend, St.checked]
      rw [hs, hf] at hb
      cases hb)
  simp only [parseDashboards, bind_apply]
  rcases hl : parseDashboardsLoop w (w.decodeDashboards body) []
    (St.checked.afterSend (searchRequest w (queryParam ("search" :: rest)))) with ⟨_ | r, st2⟩
  · rfl
  · rw [hl] at hp; cases hp

/-- C6 on a network that answers the search and fails every other request: the fetch
for the dashboard `abc` found by `search` fails in transport, and `run` panics after
sending it, where the claim has it return an error; on a network that is down, the
same failure of the search fetch itself is returned as an error. -/
theorem run_search_entry_fetch_failure_panics :
    flakyWorld.decodeDashboards searchBody = searchRecords
      ∧ (run flakyWorld ["search"] St.init).1 = none
      ∧ sentRequests (run flakyWorld ["search"] St.init).2.trace
          = [searchRequest flakyWorld "%", dashboardRequest flakyWorld "abc"]
      ∧ (run downWorld ["search"] St.init).1
          = some (some "getAllDashboards: do request: connection refused") := by
  decide

/-! ## C10: read failures -/

/-- In the three fetch operations a read failure `e` of the body is reported with
the text `read body: <nil>`, whatever `e` is: the message is formatted from the
error of `Do`, which is nil. -/
theorem read_failure_message (w : World) (st : St) (uid query e : String)
    (hu : w.newRequestError (userRequest w).url = none
      ∧ w.roundTrip st.sent (userRequest w) = RoundTrip.response (Except.error e))
    (hd : w.newRequestError (dashboardRequest w uid).url = none
      ∧ w.roundTrip st.sent (dashboardRequest w uid) = RoundTrip.response (Except.error e))
    (hs : w.newRequestError (searchRequest w query).url = none
      ∧ w.roundTrip st.sent (searchRequest w query) = RoundTrip.response (Except.error e)) :
    (getUser w st).1 = some ("", some "read body: <nil>")
      ∧ (getDashboard w uid st).1 = some ("", some "read body: <nil>")
      ∧ (getAllDashboards w query st).1 = some ([], some "read body: <nil>") := by
  rw [getUser_apply, getDashboard_apply, getAllDashboards_apply]
  simp [hu.1, hu.2, hd.1, hd.2, hs.1, hs.2]

/-- C10 on a network whose bodies fail to read with `unexpected EOF`: each of the
three operations returns the error `read body: <nil>`, not
`read body: unexpected EOF`. -/
theorem read_failure_message_lost :
    (getUser brokenReadWorld St.init).1 = some ("", some "read body: <nil>")
      ∧ (getDashboard brokenReadWorld "abc" St.init).1 = some ("", some "read body: <nil>")
      ∧ (getAllDashboards brokenReadWorld "%" St.init).1 = some ([], some "read body: <nil>")
      ∧ "read body: <nil>" ≠ "read body: " ++ "unexpected EOF" := by
  decide

end Grafana
